import Mathlib

/-!
Shallow embedding of `src/cipher2_fixed_v2.c`, a command-line URL
shortener/unshortener built on libcurl.

C strings are modelled as lists of byte values (`List Nat`).  Strings
received as inputs (argv entries, URLs, the effective URL reported by
curl) are represented by their content bytes, without the terminating
NUL; heap strings returned to the caller (via `my_strdup` or the
response buffer) are represented by their raw allocated bytes, which
include the terminating NUL, matching the bytes the C code actually
copies with `strlen(s) + 1`.

The libcurl environment (allocation success, transfer outcome, response
chunks, final status code and effective URL) is an explicit oracle
passed to each operation; the definitions themselves follow the C
control flow line by line.
-/

/-- Byte content of an ASCII string literal (no NUL terminator). -/
def ascii (s : String) : List Nat := s.data.map Char.toNat

/-- Raw bytes of a heap-allocated C string: content plus the NUL terminator,
exactly the `strlen(s) + 1` bytes that `my_strdup` copies. -/
def cstr (s : String) : List Nat := ascii s ++ [0]

/-- `my_strdup` (src lines 8-13): allocates and copies the whole string
including its terminator; returns NULL (`none`) when `malloc` fails. -/
def my_strdup (allocOk : Bool) (s : List Nat) : Option (List Nat) :=
  if allocOk then some s else none

/-- Unreserved bytes that `curl_easy_escape` leaves unescaped:
ASCII alphanumerics and `-`, `.`, `_`, `~`. -/
def isUnreservedByte (b : Nat) : Bool :=
  (48 ≤ b && b ≤ 57) || (65 ≤ b && b ≤ 90) || (97 ≤ b && b ≤ 122) ||
  b == 45 || b == 46 || b == 95 || b == 126

/-- Uppercase hexadecimal digit character code for a nibble. -/
def hexDigit (n : Nat) : Nat := if n < 10 then 48 + n else 55 + n

/-- Percent-encoding of a single byte: unreserved bytes pass through,
every other byte becomes `%XX` with uppercase hex digits. -/
def escapeByte (b : Nat) : List Nat :=
  if isUnreservedByte b then [b] else [37, hexDigit (b / 16), hexDigit (b % 16)]

/-- `curl_easy_escape(curl, s, 0)`: percent-encode every byte of `s`. -/
def curlEscape (s : List Nat) : List Nat := (s.map escapeByte).flatten

/-- `struct Response` (src lines 33-36): the raw buffer bytes (including
the NUL terminator maintained at `data[size]`) and the byte count. -/
structure Response where
  data : List Nat
  size : Nat
deriving DecidableEq, Repr

/-- `write_callback` (src lines 51-64).  `allocOk` is the outcome of the
`realloc`; on failure the function returns 0 and leaves the buffer
untouched.  On success it appends `size * nmemb` bytes of `contents`
at offset `mem.size`, bumps `size`, and NUL-terminates, returning the
number of bytes handled. -/
def write_callback (allocOk : Bool) (contents : List Nat) (sz nmemb : Nat)
    (mem : Response) : Nat × Response :=
  let realsize := sz * nmemb
  if allocOk = false then (0, mem)
  else (realsize,
    { data := mem.data.take mem.size ++ contents.take realsize ++ [0],
      size := mem.size + realsize })

/-- The response buffer as `shorten_url` initializes it (src lines 86-90):
one allocated byte holding NUL, size 0. -/
def initResponse : Response := { data := [0], size := 0 }

/-- Delivery of a list of successful chunks through `write_callback`,
the way libcurl drives it (each call with `size = 1`,
`nmemb = ` chunk length, and `contents` the chunk). -/
def appendChunks (chunks : List (List Nat)) (r : Response) : Response :=
  chunks.foldl (fun m c => (write_callback true c 1 c.length m).2) r

/-- The easy-handle options each operation sets before
`curl_easy_perform` (src lines 115-119 and 156-160). -/
structure CurlConfig where
  url : List Nat
  timeoutSecs : Nat
  connectTimeoutSecs : Nat
  followLocation : Bool
  nobody : Bool
deriving DecidableEq, Repr

/-- Oracle for one run of `shorten_url`: outcomes of `malloc(1)`,
`curl_easy_init`, `curl_easy_escape`, the `my_strdup` allocations, and
the transfer (`none` = `curl_easy_perform` failed; `some chunks` =
CURLE_OK with these body chunks delivered to `write_callback`). -/
structure ShortenEnv where
  respAllocOk : Bool
  curlInitOk : Bool
  escapeOk : Bool
  strdupOk : Bool
  network : Option (List (List Nat))
deriving DecidableEq, Repr

/-- What one call to `shorten_url` returns and requests: `ret` is the
returned pointer (`none` = NULL) and `requested` the configuration
passed to `curl_easy_perform`, when one was issued. -/
structure ShortenOutcome where
  ret : Option (List Nat)
  requested : Option CurlConfig
deriving DecidableEq, Repr

/-- The fixed TinyURL API base, as in the `snprintf` format string
(src line 112). -/
def apiPrefix : List Nat := ascii "https://tinyurl.com/api-create.php?url="

/-- `snprintf(api_url, 1024, "...%s", enc)`: the resulting buffer content,
truncated to 1023 bytes (the 1024th is the NUL terminator). -/
def snprintf1024 (pre s : List Nat) : List Nat := (pre ++ s).take 1023

/-- `shorten_url` (src lines 79-130), following its control flow:
buffer allocation, curl init, URL-encoding, the 900-byte length check,
request construction, and the perform/cleanup paths. -/
def shorten_url (env : ShortenEnv) (long_url : List Nat) : ShortenOutcome :=
  if env.respAllocOk = false then
    { ret := my_strdup env.strdupOk (cstr "Error: Memory allocation failed"),
      requested := none }
  else if env.curlInitOk = false then
    { ret := my_strdup env.strdupOk (cstr "Error: Could not initialize curl"),
      requested := none }
  else if env.escapeOk = false then
    { ret := my_strdup env.strdupOk (cstr "Error: URL encoding failed"),
      requested := none }
  else
    let encoded := curlEscape long_url
    if encoded.length > 900 then
      { ret := my_strdup env.strdupOk (cstr "Error: URL too long for API"),
        requested := none }
    else
      let api_url := snprintf1024 apiPrefix encoded
      let cfg : CurlConfig :=
        { url := api_url, timeoutSecs := 8, connectTimeoutSecs := 5,
          followLocation := false, nobody := false }
      match env.network with
      | none =>
        { ret := my_strdup env.strdupOk
            (cstr "Error: Could not shorten URL (network failure)"),
          requested := some cfg }
      | some chunks =>
        { ret := some (appendChunks chunks initResponse).data,
          requested := some cfg }

/-- Oracle for one run of `unshorten_url`: `curl_easy_init` outcome,
`my_strdup` allocation outcome, and the transfer: `none` =
`curl_easy_perform` failed; `some (code, eff)` = CURLE_OK with final
status `code` and effective URL `eff` (`none` = NULL pointer reported,
`some u` = the reported URL's content bytes). -/
structure UnshortenEnv where
  curlInitOk : Bool
  strdupOk : Bool
  transfer : Option (Nat × Option (List Nat))
deriving DecidableEq, Repr

/-- What one call to `unshorten_url` returns and requests. -/
structure UnshortenOutcome where
  ret : Option (List Nat)
  requested : Option CurlConfig
deriving DecidableEq, Repr

/-- `unshorten_url` (src lines 146-179): HEAD request with
redirect-following; the result is valid only when
`200 <= code && code < 400 && final_url != NULL`. -/
def unshorten_url (env : UnshortenEnv) (short_url : List Nat) : UnshortenOutcome :=
  if env.curlInitOk = false then
    { ret := my_strdup env.strdupOk (cstr "Error: Could not initialize curl"),
      requested := none }
  else
    let cfg : CurlConfig :=
      { url := short_url, timeoutSecs := 8, connectTimeoutSecs := 5,
        followLocation := true, nobody := true }
    match env.transfer with
    | none =>
      { ret := my_strdup env.strdupOk
          (cstr "Error: Could not unshorten URL (network issue)"),
        requested := some cfg }
    | some (code, eff) =>
      if 200 ≤ code ∧ code < 400 ∧ eff.isSome then
        { ret := my_strdup env.strdupOk (eff.getD [] ++ [0]),
          requested := some cfg }
      else
        { ret := my_strdup env.strdupOk
            (cstr "Error: Invalid or failed redirect response"),
          requested := some cfg }

/-- One observable output action of `main`: `out` is a fully determined
`printf` to stdout, `outOpt pre r` is `printf("<pre>%s\n", r)` where the
argument is a possibly-NULL heap string, `errOut` is an `fprintf` to
stderr. -/
inductive OutEvent where
  | out : List Nat → OutEvent
  | outOpt : List Nat → Option (List Nat) → OutEvent
  | errOut : List Nat → OutEvent
deriving DecidableEq, Repr

/-- The text `show_help` (src lines 186-203) prints, as a function of the
program name substituted for each `%s`. -/
def show_help_text (prog : List Nat) : List Nat :=
  ascii "\n===========================================\n" ++
  ascii " URL Shortener & Unshortener Tool\n" ++
  ascii "===========================================\n\n" ++
  ascii "Usage:\n" ++
  ascii " " ++ prog ++ ascii " [option] [url]\n\n" ++
  ascii "Options:\n" ++
  ascii " -s <url> Shorten a long URL using TinyURL API\n" ++
  ascii " -u <url> Unshorten a short URL to reveal its target\n" ++
  ascii " -h Show this help message\n\n" ++
  ascii "Examples:\n" ++
  ascii " " ++ prog ++ ascii " -s https://example.com\n" ++
  ascii " " ++ prog ++ ascii " -u https://tinyurl.com/abc123\n\n" ++
  ascii "Notes:\n" ++
  ascii " * Requires internet connectivity and libcurl.\n" ++
  ascii " * Caller must free() strings returned by -s and -u options.\n" ++
  ascii " * Compile with: gcc -std=c99 -o " ++ prog ++ ascii " " ++ prog ++
  ascii ".c -lcurl\n\n"

/-- Process-level oracle for `main`: `curl_global_init` outcome plus the
oracles of the two operations. -/
structure MainEnv where
  globalInitOk : Bool
  senv : ShortenEnv
  uenv : UnshortenEnv
deriving DecidableEq, Repr

/-- `main` (src lines 214-248): `prog` is `argv[0]`, `args` is
`argv[1..]` (so `argc = args.length + 1`).  Returns the exit code and
the output events, mirroring the branch structure: no-args help (exit 1),
global-init failure (exit 1), `-h`, `-s <url>`, `-u <url>`, and the
invalid-usage branch; all post-init branches fall through to `return 0`. -/
def main_run (env : MainEnv) (prog : List Nat) (args : List (List Nat)) :
    Nat × List OutEvent :=
  if args.length = 0 then (1, [OutEvent.out (show_help_text prog)])
  else if env.globalInitOk = false then
    (1, [OutEvent.errOut (ascii "Error: Failed to initialize libcurl\n")])
  else if args.headD [] = ascii "-h" then
    (0, [OutEvent.out (show_help_text prog)])
  else if args.headD [] = ascii "-s" ∧ args.length = 2 then
    (0, [OutEvent.outOpt (ascii "Shortened URL: ")
          (shorten_url env.senv (args.getD 1 [])).ret])
  else if args.headD [] = ascii "-u" ∧ args.length = 2 then
    (0, [OutEvent.outOpt (ascii "Original URL: ")
          (unshorten_url env.uenv (args.getD 1 [])).ret])
  else
    (0, [OutEvent.errOut (ascii "Error: Invalid command or missing argument.\n"),
         OutEvent.out (show_help_text prog)])

/-- A fully healthy `shorten_url` oracle whose transfer fails. -/
def okNoNetEnv : ShortenEnv :=
  { respAllocOk := true, curlInitOk := true, escapeOk := true,
    strdupOk := true, network := none }

/-- A healthy `unshorten_url` oracle whose transfer fails. -/
def unshortenNoNetEnv : UnshortenEnv :=
  { curlInitOk := true, strdupOk := true, transfer := none }

/-- A healthy process oracle in which both network operations fail. -/
def networkDownEnv : MainEnv :=
  { globalInitOk := true, senv := okNoNetEnv, uenv := unshortenNoNetEnv }

/-- A `shorten_url` oracle delivering the response body in two chunks. -/
def twoChunkEnv : ShortenEnv :=
  { respAllocOk := true, curlInitOk := true, escapeOk := true, strdupOk := true,
    network := some [ascii "https://tin", ascii "yurl.com/x9"] }

/-- An `unshorten_url` oracle: transfer completes with status 200 but the
reported effective URL is the empty string (non-NULL, zero length). -/
def emptyEffEnv : UnshortenEnv :=
  { curlInitOk := true, strdupOk := true, transfer := some (200, some []) }

/-- An `unshorten_url` oracle: transfer completes with status 200 and a
normal effective URL. -/
def redirect200Env : UnshortenEnv :=
  { curlInitOk := true, strdupOk := true,
    transfer := some (200, some (ascii "https://example.com")) }

/-- A `shorten_url` oracle in which the initial `malloc(1)` and every
`my_strdup` allocation fail. -/
def strdupFailSEnv : ShortenEnv :=
  { respAllocOk := false, curlInitOk := true, escapeOk := true,
    strdupOk := false, network := none }

/-- A `shorten_url` oracle in which every `my_strdup` allocation fails
and the error path taken is the transport failure (all earlier
allocations succeed, the transfer fails). -/
def strdupFailNetSEnv : ShortenEnv :=
  { respAllocOk := true, curlInitOk := true, escapeOk := true,
    strdupOk := false, network := none }

/-- An `unshorten_url` oracle in which every `my_strdup` allocation
fails and the transfer also fails. -/
def strdupFailUEnv : UnshortenEnv :=
  { curlInitOk := true, strdupOk := false, transfer := none }

/-- A process oracle combining the two allocation-failure oracles. -/
def strdupFailMainEnv : MainEnv :=
  { globalInitOk := true, senv := strdupFailSEnv, uenv := strdupFailUEnv }

/-- Helper: delivering chunks into a well-formed buffer appends their
bytes in order, keeps the byte count exact, and keeps the terminator. -/
theorem appendChunks_eq (chunks : List (List Nat)) (acc : List Nat) :
    appendChunks chunks { data := acc ++ [0], size := acc.length } =
      { data := acc ++ chunks.flatten ++ [0], size := acc.length + chunks.flatten.length } := by
  induction chunks generalizing acc with
  | nil => simp [appendChunks]
  | cons c rest ih =>
    simp only [appendChunks, List.foldl_cons] at ih ⊢
    have hstep : (write_callback true c 1 c.length
        { data := acc ++ [0], size := acc.length }).2 =
        { data := (acc ++ c) ++ [0], size := (acc ++ c).length } := by
      simp [write_callback, List.take_left]
    rw [hstep, ih (acc ++ c)]
    simp [List.length_append]
    omega

/-- C5: starting from the buffer initialized to one zero byte, after any
sequence of successful `write_callback` invocations `size` equals the
total number of bytes appended, `data` holds exactly those bytes in
arrival order followed by the NUL terminator at `data[size]`; an
invocation whose `realloc` fails returns 0 and leaves `size` (and the
buffer) unchanged. -/
theorem write_callback_invariant :
    (∀ chunks : List (List Nat),
       (appendChunks chunks initResponse).size = (chunks.map List.length).sum ∧
       (appendChunks chunks initResponse).data = chunks.flatten ++ [0] ∧
       (appendChunks chunks initResponse).data.getD
         (appendChunks chunks initResponse).size 1 = 0) ∧
    (∀ (contents : List Nat) (sz nmemb : Nat) (mem : Response),
       (write_callback false contents sz nmemb mem).1 = 0 ∧
       (write_callback false contents sz nmemb mem).2 = mem) := by
  constructor
  · intro chunks
    have h : appendChunks chunks initResponse =
        { data := chunks.flatten ++ [0], size := chunks.flatten.length } := by
      have h0 := appendChunks_eq chunks []
      simpa [initResponse] using h0
    rw [h]
    refine ⟨by simp [List.length_flatten], rfl, ?_⟩
    simp [List.getD, List.getElem?_append_right]
  · intro contents sz nmemb mem
    simp [write_callback]

/-- C10: for every percent-encoded URL of at most 900 bytes, the 39-byte
fixed prefix plus the encoded URL plus the NUL terminator fits in the
1024-byte `api_url` buffer, so the `snprintf` that builds the request
URL does not truncate. -/
theorem api_url_no_truncation (enc : List Nat) (h : enc.length ≤ 900) :
    snprintf1024 apiPrefix enc = apiPrefix ++ enc ∧
    apiPrefix.length = 39 ∧
    (apiPrefix ++ enc).length + 1 ≤ 1024 := by
  have hpre : apiPrefix.length = 39 := by decide
  have hlen : (apiPrefix ++ enc).length ≤ 1023 := by
    simp [List.length_append, hpre]; omega
  exact ⟨List.take_of_length_le hlen, hpre, by omega⟩

/-- Closed instance of `api_url_no_truncation` at a concrete encoded URL. -/
theorem api_url_no_truncation_witness :
    (ascii "example").length ≤ 900 ∧
    (snprintf1024 apiPrefix (ascii "example") = apiPrefix ++ ascii "example" ∧
     apiPrefix.length = 39 ∧
     (apiPrefix ++ ascii "example").length + 1 ≤ 1024) :=
  ⟨by decide, api_url_no_truncation (ascii "example") (by decide)⟩

/-- Helper: the buffer state after delivering chunks into the freshly
initialized response buffer. -/
theorem appendChunks_initResponse (chunks : List (List Nat)) :
    appendChunks chunks initResponse =
      { data := chunks.flatten ++ [0], size := chunks.flatten.length } := by
  simpa [initResponse] using appendChunks_eq chunks []

/-- Helper: under the 900-byte bound the `snprintf` keeps the whole
prefix-plus-encoding. -/
theorem snprintf1024_apiPrefix (enc : List Nat) (h : enc.length ≤ 900) :
    snprintf1024 apiPrefix enc = apiPrefix ++ enc := by
  have hpre : apiPrefix.length = 39 := by decide
  exact List.take_of_length_le (by simp [List.length_append, hpre]; omega)

/-- Helper: on the path where allocation, curl init and encoding succeed
and the encoded URL passes the length check, `shorten_url` issues exactly
one GET with the constructed URL and fixed options, and its return value
is determined by the transfer outcome. -/
theorem shorten_url_perform (env : ShortenEnv) (lu : List Nat)
    (h1 : env.respAllocOk = true) (h2 : env.curlInitOk = true)
    (h3 : env.escapeOk = true) (h4 : (curlEscape lu).length ≤ 900) :
    (shorten_url env lu).requested =
      some { url := snprintf1024 apiPrefix (curlEscape lu), timeoutSecs := 8,
             connectTimeoutSecs := 5, followLocation := false, nobody := false } ∧
    (shorten_url env lu).ret =
      (match env.network with
       | none => my_strdup env.strdupOk
           (cstr "Error: Could not shorten URL (network failure)")
       | some chunks => some (appendChunks chunks initResponse).data) := by
  have hno : ¬ (curlEscape lu).length > 900 := by omega
  rcases hnet : env.network with _ | chunks <;>
    simp [shorten_url, h1, h2, h3, hno, hnet]

/-- Helper: once `curl_easy_init` succeeds, `unshorten_url` issues the
HEAD request with the fixed options and its return value is determined
by the transfer outcome. -/
theorem unshorten_url_perform (env : UnshortenEnv) (su : List Nat)
    (h1 : env.curlInitOk = true) :
    (unshorten_url env su).requested =
      some { url := su, timeoutSecs := 8, connectTimeoutSecs := 5,
             followLocation := true, nobody := true } ∧
    (unshorten_url env su).ret =
      (match env.transfer with
       | none => my_strdup env.strdupOk
           (cstr "Error: Could not unshorten URL (network issue)")
       | some (code, eff) =>
         if 200 ≤ code ∧ code < 400 ∧ eff.isSome then
           my_strdup env.strdupOk (eff.getD [] ++ [0])
         else
           my_strdup env.strdupOk
             (cstr "Error: Invalid or failed redirect response")) := by
  rcases htr : env.transfer with _ | ⟨code, eff⟩
  · simp [unshorten_url, h1, htr]
  · rcases Decidable.em (200 ≤ code ∧ code < 400 ∧ eff.isSome = true) with hc | hc <;>
      simp [unshorten_url, h1, htr, hc]

/-- C2 counterexample: a completed transfer with final status 200 whose
reported effective URL is the empty string (non-NULL).  `unshorten_url`
returns that empty string — equal to the effective URL and different
from each of its error strings — instead of the error string the claim
requires for an empty effective URL. -/
theorem unshorten_empty_effective_not_error :
    (unshorten_url emptyEffEnv (ascii "https://tinyurl.com/abc123")).ret =
      some ([] ++ [0]) ∧
    ([] ++ [0] : List Nat) ≠ cstr "Error: Invalid or failed redirect response" ∧
    ([] ++ [0] : List Nat) ≠ cstr "Error: Could not unshorten URL (network issue)" ∧
    ([] ++ [0] : List Nat) ≠ cstr "Error: Could not initialize curl" := by
  refine ⟨?_, by decide, by decide, by decide⟩
  decide

/-- C2 (amended): for every completed (transport-successful) HEAD request,
the result is the final effective URL exactly when the final status code
lies in [200, 400) and an effective URL was reported at all (non-NULL —
the code does not check for emptiness); otherwise `unshorten_url`
returns the invalid-redirect error string. -/
theorem unshorten_result_validity (env : UnshortenEnv) (su : List Nat)
    (code : Nat) (eff : Option (List Nat))
    (h1 : env.curlInitOk = true) (h2 : env.strdupOk = true)
    (h3 : env.transfer = some (code, eff)) :
    ((200 ≤ code ∧ code < 400 ∧ eff.isSome) →
        (unshorten_url env su).ret = some (eff.getD [] ++ [0])) ∧
    (¬ (200 ≤ code ∧ code < 400 ∧ eff.isSome) →
        (unshorten_url env su).ret =
          some (cstr "Error: Invalid or failed redirect response")) := by
  constructor
  · intro hv
    simp [unshorten_url, h1, h3, hv, my_strdup, h2]
  · intro hv
    simp [unshorten_url, h1, h3, hv, my_strdup, h2]

/-- Closed instance of `unshorten_result_validity`: status 200 with a
normal effective URL yields that URL. -/
theorem unshorten_result_validity_witness :
    (unshorten_url redirect200Env (ascii "https://tinyurl.com/abc123")).ret =
      some (ascii "https://example.com" ++ [0]) := by
  have h := unshorten_result_validity redirect200Env
    (ascii "https://tinyurl.com/abc123") 200 (some (ascii "https://example.com"))
    rfl rfl rfl
  exact h.1 (by decide)

/-- C3: when allocation, curl init and encoding succeed, an input whose
percent-encoded form exceeds 900 bytes makes `shorten_url` return the
too-long error without issuing any request, while an encoded form of at
most 900 bytes passes the check and a request is issued. -/
theorem shorten_length_check (env : ShortenEnv) (lu : List Nat)
    (h1 : env.respAllocOk = true) (h2 : env.curlInitOk = true)
    (h3 : env.escapeOk = true) (h4 : env.strdupOk = true) :
    ((curlEscape lu).length > 900 →
        (shorten_url env lu).requested = none ∧
        (shorten_url env lu).ret = some (cstr "Error: URL too long for API")) ∧
    ((curlEscape lu).length ≤ 900 → (shorten_url env lu).requested.isSome) := by
  constructor
  · intro hgt
    simp [shorten_url, h1, h2, h3, h4, hgt, my_strdup]
  · intro hle
    rw [(shorten_url_perform env lu h1 h2 h3 hle).1]
    rfl

/-- Closed instance of `shorten_length_check`: 901 unreserved bytes
encode to 901 bytes and are rejected with no request issued. -/
theorem shorten_length_check_witness :
    (curlEscape (List.replicate 901 97)).length > 900 ∧
    (shorten_url okNoNetEnv (List.replicate 901 97)).requested = none ∧
    (shorten_url okNoNetEnv (List.replicate 901 97)).ret =
      some (cstr "Error: URL too long for API") := by
  have he : escapeByte 97 = [97] := by decide
  have key : ∀ n : Nat, ((List.replicate n 97).map escapeByte).flatten.length = n := by
    intro n
    induction n with
    | zero => rfl
    | succ k ih =>
      rw [List.replicate_succ, List.map_cons, List.flatten_cons,
        List.length_append, he, ih]
      simp only [List.length_cons, List.length_nil]
      omega
  have hlen : (curlEscape (List.replicate 901 97)).length = 901 := key 901
  have hgt : (curlEscape (List.replicate 901 97)).length > 900 := by omega
  have h := shorten_length_check okNoNetEnv (List.replicate 901 97) rfl rfl rfl rfl
  exact ⟨hgt, (h.1 hgt).1, (h.1 hgt).2⟩

/-- C4: when the transfer itself fails, `shorten_url` and `unshorten_url`
each return a descriptive error string, a distinct one per operation,
and each transport-failure string differs from the strings of every
other failure category (allocation, curl init, encoding, input too
long, invalid redirect response). -/
theorem transport_failure_distinct_errors (senv : ShortenEnv)
    (uenv : UnshortenEnv) (lu su : List Nat)
    (h1 : senv.respAllocOk = true) (h2 : senv.curlInitOk = true)
    (h3 : senv.escapeOk = true) (h4 : senv.strdupOk = true)
    (h5 : (curlEscape lu).length ≤ 900) (h6 : senv.network = none)
    (h7 : uenv.curlInitOk = true) (h8 : uenv.strdupOk = true)
    (h9 : uenv.transfer = none) :
    (shorten_url senv lu).ret =
      some (cstr "Error: Could not shorten URL (network failure)") ∧
    (unshorten_url uenv su).ret =
      some (cstr "Error: Could not unshorten URL (network issue)") ∧
    cstr "Error: Could not shorten URL (network failure)" ≠
      cstr "Error: Could not unshorten URL (network issue)" ∧
    cstr "Error: Could not shorten URL (network failure)" ∉
      [cstr "Error: Memory allocation failed",
       cstr "Error: Could not initialize curl",
       cstr "Error: URL encoding failed",
       cstr "Error: URL too long for API",
       cstr "Error: Invalid or failed redirect response"] ∧
    cstr "Error: Could not unshorten URL (network issue)" ∉
      [cstr "Error: Memory allocation failed",
       cstr "Error: Could not initialize curl",
       cstr "Error: URL encoding failed",
       cstr "Error: URL too long for API",
       cstr "Error: Invalid or failed redirect response"] := by
  refine ⟨?_, ?_, by decide, by decide, by decide⟩
  · have hp := (shorten_url_perform senv lu h1 h2 h3 h5).2
    rw [h6] at hp
    rw [hp]
    simp [my_strdup, h4]
  · have hp := (unshorten_url_perform uenv su h7).2
    rw [h9] at hp
    rw [hp]
    simp [my_strdup, h8]

/-- Closed instance of `transport_failure_distinct_errors` at concrete
environments whose transfers fail. -/
theorem transport_failure_distinct_errors_witness :
    (shorten_url okNoNetEnv (ascii "https://example.com")).ret =
      some (cstr "Error: Could not shorten URL (network failure)") ∧
    (unshorten_url unshortenNoNetEnv (ascii "https://tinyurl.com/abc123")).ret =
      some (cstr "Error: Could not unshorten URL (network issue)") := by
  have h := transport_failure_distinct_errors okNoNetEnv unshortenNoNetEnv
    (ascii "https://example.com") (ascii "https://tinyurl.com/abc123")
    rfl rfl rfl rfl (by decide) rfl rfl rfl rfl
  exact ⟨h.1, h.2.1⟩

/-- C6: for an input passing the length check, the URL handed to
`curl_easy_perform` is exactly the fixed API base concatenated with the
percent-encoded input, and on a successful transfer `shorten_url`
returns the buffer holding the full response body (all delivered chunks
in order, NUL-terminated). -/
theorem shorten_request_and_body (env : ShortenEnv) (lu : List Nat)
    (chunks : List (List Nat))
    (h1 : env.respAllocOk = true) (h2 : env.curlInitOk = true)
    (h3 : env.escapeOk = true) (h4 : (curlEscape lu).length ≤ 900)
    (h5 : env.network = some chunks) :
    (shorten_url env lu).requested =
      some { url := apiPrefix ++ curlEscape lu, timeoutSecs := 8,
             connectTimeoutSecs := 5, followLocation := false, nobody := false } ∧
    (shorten_url env lu).ret = some (chunks.flatten ++ [0]) := by
  have hp := shorten_url_perform env lu h1 h2 h3 h4
  constructor
  · rw [hp.1, snprintf1024_apiPrefix (curlEscape lu) h4]
  · have hr := hp.2
    rw [h5] at hr
    rw [hr]
    simp [appendChunks_initResponse]

/-- Closed instance of `shorten_request_and_body`: a response delivered
in two chunks is returned whole, and the request URL is the API base
plus the encoded input. -/
theorem shorten_request_and_body_witness :
    (shorten_url twoChunkEnv (ascii "https://example.com")).requested =
      some { url := apiPrefix ++ curlEscape (ascii "https://example.com"),
             timeoutSecs := 8, connectTimeoutSecs := 5,
             followLocation := false, nobody := false } ∧
    (shorten_url twoChunkEnv (ascii "https://example.com")).ret =
      some (([ascii "https://tin", ascii "yurl.com/x9"] : List (List Nat)).flatten
        ++ [0]) :=
  shorten_request_and_body twoChunkEnv (ascii "https://example.com")
    [ascii "https://tin", ascii "yurl.com/x9"] rfl rfl rfl (by decide) rfl

/-- C8: both operations configure the client with a 5-second connect
timeout and an 8-second overall timeout; the unshorten HEAD additionally
enables redirect-following and the no-body option, which the shorten GET
leaves off. -/
theorem curl_config_timeouts (senv : ShortenEnv) (uenv : UnshortenEnv)
    (lu su : List Nat)
    (h1 : senv.respAllocOk = true) (h2 : senv.curlInitOk = true)
    (h3 : senv.escapeOk = true) (h4 : (curlEscape lu).length ≤ 900)
    (h5 : uenv.curlInitOk = true) :
    (shorten_url senv lu).requested =
      some { url := snprintf1024 apiPrefix (curlEscape lu), timeoutSecs := 8,
             connectTimeoutSecs := 5, followLocation := false, nobody := false } ∧
    (unshorten_url uenv su).requested =
      some { url := su, timeoutSecs := 8, connectTimeoutSecs := 5,
             followLocation := true, nobody := true } :=
  ⟨(shorten_url_perform senv lu h1 h2 h3 h4).1,
   (unshorten_url_perform uenv su h5).1⟩

/-- Closed instance of `curl_config_timeouts` at concrete environments. -/
theorem curl_config_timeouts_witness :
    (shorten_url okNoNetEnv (ascii "https://example.com")).requested =
      some { url := snprintf1024 apiPrefix (curlEscape (ascii "https://example.com")),
             timeoutSecs := 8, connectTimeoutSecs := 5,
             followLocation := false, nobody := false } ∧
    (unshorten_url unshortenNoNetEnv (ascii "https://tinyurl.com/abc123")).requested =
      some { url := ascii "https://tinyurl.com/abc123", timeoutSecs := 8,
             connectTimeoutSecs := 5, followLocation := true, nobody := true } :=
  curl_config_timeouts okNoNetEnv unshortenNoNetEnv
    (ascii "https://example.com") (ascii "https://tinyurl.com/abc123")
    rfl rfl rfl (by decide) rfl

/-- C7: the no-argument invocation and the `-h` invocation produce the
same help text, character for character (both print
`show_help_text prog`, i.e. the same `show_help` call on the program
name); the no-argument invocation exits 1, `-h` exits 0. -/
theorem help_text_identical (env : MainEnv) (prog : List Nat)
    (h : env.globalInitOk = true) :
    main_run env prog [] = (1, [OutEvent.out (show_help_text prog)]) ∧
    main_run env prog [ascii "-h"] = (0, [OutEvent.out (show_help_text prog)]) := by
  constructor
  · simp [main_run]
  · simp only [main_run]
    rw [if_neg (by decide), if_neg (by simp [h]), if_pos (by decide)]

/-- Closed instance of `help_text_identical` at a concrete environment
and program name. -/
theorem help_text_identical_witness :
    main_run networkDownEnv (ascii "cipher") [] =
      (1, [OutEvent.out (show_help_text (ascii "cipher"))]) ∧
    main_run networkDownEnv (ascii "cipher") [ascii "-h"] =
      (0, [OutEvent.out (show_help_text (ascii "cipher"))]) :=
  help_text_identical networkDownEnv (ascii "cipher") rfl

/-- C9: when the `my_strdup` allocation fails, `shorten_url` returns
NULL (`none`) on every one of its error paths — initial `malloc(1)`
failure, curl-init failure, encoding failure, the too-long rejection,
and transport failure (the disjunction enumerates exactly the paths
that return through `my_strdup`) — and `unshorten_url` returns NULL on
every path whatsoever; `main` then passes that NULL straight to
`printf`; and whenever the allocations succeed the result is
guaranteed to be a non-NULL string. -/
theorem strdup_failure_null_result :
    (∀ (env : ShortenEnv) (lu : List Nat),
        env.strdupOk = false →
        (env.respAllocOk = false ∨ env.curlInitOk = false ∨
         env.escapeOk = false ∨ (curlEscape lu).length > 900 ∨
         env.network = none) →
        (shorten_url env lu).ret = none) ∧
    (∀ (env : UnshortenEnv) (su : List Nat),
        env.strdupOk = false → (unshorten_url env su).ret = none) ∧
    (∀ (menv : MainEnv) (prog lu : List Nat),
        menv.globalInitOk = true → menv.senv.strdupOk = false →
        menv.senv.respAllocOk = false →
        main_run menv prog [ascii "-s", lu] =
          (0, [OutEvent.outOpt (ascii "Shortened URL: ") none])) ∧
    (∀ (senv : ShortenEnv) (uenv : UnshortenEnv) (lu su : List Nat),
        senv.strdupOk = true → uenv.strdupOk = true →
        (shorten_url senv lu).ret.isSome ∧ (unshorten_url uenv su).ret.isSome) := by
  have hsh : ∀ (env : ShortenEnv) (lu : List Nat),
      env.strdupOk = false →
      (env.respAllocOk = false ∨ env.curlInitOk = false ∨
       env.escapeOk = false ∨ (curlEscape lu).length > 900 ∨
       env.network = none) →
      (shorten_url env lu).ret = none := by
    intro env lu hs hpath
    cases hra : env.respAllocOk
    · simp [shorten_url, hra, my_strdup, hs]
    · cases hci : env.curlInitOk
      · simp [shorten_url, hra, hci, my_strdup, hs]
      · cases heo : env.escapeOk
        · simp [shorten_url, hra, hci, heo, my_strdup, hs]
        · rcases Decidable.em ((curlEscape lu).length > 900) with hgt | hle
          · simp [shorten_url, hra, hci, heo, hgt, my_strdup, hs]
          · rcases hnet : env.network with _ | chunks
            · simp [shorten_url, hra, hci, heo, hle, hnet, my_strdup, hs]
            · exfalso
              rcases hpath with h | h | h | h | h <;> simp_all
  refine ⟨hsh, ?_, ?_, ?_⟩
  · intro env su hs
    cases hci : env.curlInitOk
    · simp [unshorten_url, hci, my_strdup, hs]
    · rcases htr : env.transfer with _ | ⟨code, eff⟩
      · simp [unshorten_url, hci, htr, my_strdup, hs]
      · simp only [unshorten_url, hci, htr]
        split <;> simp [my_strdup, hs]
  · intro menv prog lu hg hs hr
    have hne : ascii "-s" ≠ ascii "-h" := by decide
    simp only [main_run]
    rw [if_neg (by simp), if_neg (by simp [hg]), if_neg (by simp [hne]),
      if_pos (by simp)]
    rw [show ([ascii "-s", lu].getD 1 []) = lu from rfl,
      hsh menv.senv lu hs (Or.inl hr)]
  · intro senv uenv lu su hs hu
    constructor
    · rcases hnet : senv.network with _ | chunks <;>
        simp [shorten_url, my_strdup, hs, hnet] <;> split_ifs <;> simp
    · cases hci : uenv.curlInitOk
      · simp [unshorten_url, hci, my_strdup, hu]
      · rcases htr : uenv.transfer with _ | ⟨code, eff⟩
        · simp [unshorten_url, hci, htr, my_strdup, hu]
        · rcases Decidable.em (200 ≤ code ∧ code < 400 ∧ eff.isSome = true) with hc | hc <;>
            simp [unshorten_url, hci, htr, hc, my_strdup, hu]

/-- Closed instance of `strdup_failure_null_result` at concrete
environments: failing allocations give NULL on the `malloc(1)`-failure
path and on the transport-failure path, while succeeding allocations
never do. -/
theorem strdup_failure_null_result_witness :
    (shorten_url strdupFailSEnv (ascii "https://example.com")).ret = none ∧
    (shorten_url strdupFailNetSEnv (ascii "https://example.com")).ret = none ∧
    (unshorten_url strdupFailUEnv (ascii "https://tinyurl.com/abc123")).ret = none ∧
    main_run strdupFailMainEnv (ascii "cipher")
        [ascii "-s", ascii "https://example.com"] =
      (0, [OutEvent.outOpt (ascii "Shortened URL: ") none]) ∧
    ((shorten_url okNoNetEnv (ascii "https://example.com")).ret.isSome ∧
     (unshorten_url unshortenNoNetEnv (ascii "https://tinyurl.com/abc123")).ret.isSome) :=
  ⟨strdup_failure_null_result.1 strdupFailSEnv (ascii "https://example.com") rfl
     (Or.inl rfl),
   strdup_failure_null_result.1 strdupFailNetSEnv (ascii "https://example.com") rfl
     (Or.inr (Or.inr (Or.inr (Or.inr rfl)))),
   strdup_failure_null_result.2.1 strdupFailUEnv
     (ascii "https://tinyurl.com/abc123") rfl,
   strdup_failure_null_result.2.2.1 strdupFailMainEnv (ascii "cipher")
     (ascii "https://example.com") rfl rfl rfl,
   strdup_failure_null_result.2.2.2 okNoNetEnv unshortenNoNetEnv
     (ascii "https://example.com") (ascii "https://tinyurl.com/abc123") rfl rfl⟩

/-- C1 evaluation: invoking `main` with the invalid argument `-x` prints
the invalid-usage error and the help text but exits 0, not non-zero as
specified; likewise `-s` with its URL missing exits 0.  The surrounding
conjuncts confirm the rest of the claim: no arguments exits 1, `-h`
exits 0, and a dispatched `-s <url>` whose transfer fails still exits 0. -/
theorem main_invalid_usage_exits_zero :
    (main_run networkDownEnv (ascii "cipher") [ascii "-x"]).1 = 0 ∧
    (main_run networkDownEnv (ascii "cipher") [ascii "-x"]).2 =
      [OutEvent.errOut (ascii "Error: Invalid command or missing argument.\n"),
       OutEvent.out (show_help_text (ascii "cipher"))] ∧
    (main_run networkDownEnv (ascii "cipher") [ascii "-s"]).1 = 0 ∧
    (main_run networkDownEnv (ascii "cipher") []).1 = 1 ∧
    (main_run networkDownEnv (ascii "cipher") [ascii "-h"]).1 = 0 ∧
    (main_run networkDownEnv (ascii "cipher")
        [ascii "-s", ascii "https://example.com"]).1 = 0 := by
  refine ⟨rfl, rfl, rfl, rfl, rfl, rfl⟩
